import Mathlib

deriving instance DecidableEq for Except

/-!
Shallow embedding of the `bakpy` repository (src/archive.py and src/bak.py).

The filesystem is modelled as a pair of boolean predicates on path strings
(`Path(p).is_dir()` / `Path(p).is_file()`); Python exceptions become an
explicit `Except` error channel carrying the exception class and, where the
message comes from the repository source, the message string.  `pathlib`'s
`/` join is modelled for the POSIX flavour: joining with an absolute right
operand discards the left one, otherwise the components are separated by a
slash.  `datetime.now().strftime(...)` is modelled as an ambient `now`
string passed to the constructor.
-/

namespace Bakpy

/-- Python exceptions reachable in this code base.  `ConfigError` subclasses
`OSError` (src/bak.py line 33); `ArchiveException` subclasses `Exception`
only (src/archive.py line 8).  `typeError` stands for the `TypeError` that
CPython raises when a `None` pathname reaches `os.fspath` inside
`tarfile.add`; its message text comes from the interpreter, not from this
repository, so it carries none.  `valueError` stands for
`json.JSONDecodeError` (a `ValueError`). -/
inductive PyError where
  | archiveExc (msg : String)
  | configError (msg : String)
  | osError (msg : String)
  | valueError
  | typeError
deriving DecidableEq, Repr

/-- Which of the modelled exception classes are subclasses of `OSError`
(and hence caught by an `except OSError` clause). -/
def PyError.isOSError : PyError → Bool
  | .configError _ => true
  | .osError _ => true
  | _ => false

/-- Python `str(exc)` for the exceptions whose message text originates in
this repository (used when an f-string interpolates a caught exception). -/
def PyError.str : PyError → String
  | .archiveExc m => m
  | .configError m => m
  | .osError m => m
  | .valueError => "JSONDecodeError"
  | .typeError => "TypeError"

/-- The filesystem visible to `pathlib`: which path strings name an existing
directory and which name an existing regular file. -/
structure FS where
  isDir : String → Bool
  isFile : String → Bool

/-- Python `str.strip()` with no argument: remove leading and trailing
whitespace.  (`Char.isWhitespace` covers the ASCII whitespace the claims
exercise.) -/
def pyStrip (s : String) : String :=
  String.mk (((s.data.dropWhile Char.isWhitespace).reverse.dropWhile
    Char.isWhitespace).reverse)

/-- Whether a POSIX path string is absolute (has a leading slash). -/
def isAbsolutePath (s : String) : Bool :=
  match s.data with
  | [] => false
  | c :: _ => c = '/'

/-- `Path(root) / ext` (POSIX): an absolute right operand replaces the left
one, otherwise the two are joined with a slash. -/
def pyJoin (root ext : String) : String :=
  if isAbsolutePath ext then ext else root ++ "/" ++ ext

/-- `Archive.is_valid_dir` (src/archive.py lines 103-108): wrapper for
`Path(directory).is_dir()`. -/
def is_valid_dir (fs : FS) (directory : String) : Bool :=
  fs.isDir directory

/-- `Archive.is_valid_file` (src/archive.py lines 111-116): wrapper for
`Path(fname).is_file()`. -/
def is_valid_file (fs : FS) (fname : String) : Bool :=
  fs.isFile fname

/-- `Archive.is_valid_item` (src/archive.py lines 119-122): a directory or
a file. -/
def is_valid_item (fs : FS) (item : String) : Bool :=
  is_valid_dir fs item || is_valid_file fs item

/-- `Archive.join_path` (src/archive.py lines 125-131): joins `root / ext`
and returns `None` when the joined path is not a valid item. -/
def join_path (fs : FS) (root ext : String) : Option String :=
  let full := pyJoin root ext
  if is_valid_item fs full then some full else none

/-- The state of an `Archive` instance (src/archive.py lines 15-21):
private fields `__root`, `__items`, `__base_name`, `__packed`,
`__timestamp`. -/
structure Archive where
  root : String
  items : List String
  baseName : String
  packed : Bool
  timestamp : String
deriving DecidableEq, Repr

/-- The loop body of `Archive._set_items` (src/archive.py lines 72-83):
keep an item when it is a valid item itself, otherwise when `root / item`
is; in both cases the original item string is appended. -/
def set_items (fs : FS) (root : String) : List String → List String
  | [] => []
  | item :: rest =>
    if is_valid_item fs item then
      item :: set_items fs root rest
    else if is_valid_item fs (pyJoin root item) then
      item :: set_items fs root rest
    else
      set_items fs root rest

/-- `Archive._set_name` (src/archive.py lines 86-93): blank and
whitespace-only names fall back to "Archive"; the stored name is stripped
of surrounding whitespace. -/
def set_name (name : String) : String :=
  if pyStrip name = "" then "Archive" else pyStrip name

/-- `Archive.__init__` (src/archive.py lines 15-21): `_set_root` raises
`ArchiveException` when the root is not a valid directory; `_set_items`
filters; `_set_name` normalises; `packed` is stored as passed; the
timestamp is captured once, here modelled by the ambient `now` string. -/
def mkArchive (fs : FS) (froot : String) (fitems : List String)
    (base_name : String) (packed : Bool) (now : String) :
    Except PyError Archive :=
  if is_valid_dir fs froot then
    Except.ok
      { root := froot
        items := set_items fs froot fitems
        baseName := set_name base_name
        packed := packed
        timestamp := now }
  else
    Except.error (PyError.archiveExc "\x27root directory\x27 provided is not valid.")

/-- `Archive.is_packed` (src/archive.py lines 24-26). -/
def Archive.is_packed (a : Archive) : Bool :=
  a.packed

/-- `Archive.get_root` (src/archive.py lines 29-31). -/
def Archive.get_root (a : Archive) : String :=
  a.root

/-- `Archive.get_items` (src/archive.py lines 34-36). -/
def Archive.get_items (a : Archive) : List String :=
  a.items

/-- `Archive.get_name` (src/archive.py lines 39-47). -/
def Archive.get_name (a : Archive) (packed : Bool) : String :=
  a.baseName ++ "-" ++ a.timestamp ++ (if packed then ".tgz" else ".tar")

/-- The `for item in self.get_items()` loop of `Archive.pack`
(src/archive.py lines 98-99): each item is joined against the root with
`join_path`; `tar.add` receives the join result as the member's pathname
and the item as its archived name.  When `join_path` returns `None`,
`tar.add(None, item)` raises `TypeError` (from `os.fspath`); members added
before the failing one were already written into the (then abandoned)
tar file.  On success the list of `(pathname, arcname)` pairs added to the
tar is returned. -/
def tar_add_items (fs : FS) (root : String) :
    List String → Except PyError (List (String × String))
  | [] => Except.ok []
  | item :: rest =>
    match join_path fs root item with
    | none => Except.error PyError.typeError
    | some full => (tar_add_items fs root rest).map (fun ms => (full, item) :: ms)

/-- `Archive.pack` (src/archive.py lines 96-101): writes the tar at
`get_name(packed=True)`, adding every item; only after the loop completes
does line 100 set `__packed = True`.  The returned value pairs the tar
members written with the updated instance state; on an exception the
instance state is unchanged (the assignment on line 100 is never
reached). -/
def Archive.pack (fs : FS) (a : Archive) :
    Except PyError (List (String × String) × Archive) :=
  (tar_add_items fs a.root a.items).map
    (fun ms => (ms, { a with packed := true }))

/-! ## hashlib.md5, modelled as the MD5 algorithm (RFC 1321)

`hashlib.md5()` keeps four 32-bit words of chain state, a buffer of fewer
than 64 pending bytes, and the total byte count; `update` absorbs bytes,
compressing each complete 64-byte block eagerly; `hexdigest` pads the
pending bytes and returns the 128-bit digest as 32 lowercase hex
characters.  Machine words are `Nat` reduced modulo `2 ^ 32` at every
operation that could overflow; bytes are `Nat` reduced modulo 256 where
they are consumed. -/

/-- Four 32-bit chaining words `(a, b, c, d)`. -/
abbrev MD5St := Nat × Nat × Nat × Nat

/-- Left-rotation of a 32-bit word by `s` places. -/
def rotl32 (x s : Nat) : Nat :=
  (((x % 4294967296) <<< s) % 4294967296) ||| ((x % 4294967296) >>> (32 - s))

/-- The sixty-four round constants `floor(2^32 * abs(sin(i + 1)))`. -/
def md5K : List Nat :=
  [0xd76aa478, 0xe8c7b756, 0x242070db, 0xc1bdceee,
   0xf57c0faf, 0x4787c62a, 0xa8304613, 0xfd469501,
   0x698098d8, 0x8b44f7af, 0xffff5bb1, 0x895cd7be,
   0x6b901122, 0xfd987193, 0xa679438e, 0x49b40821,
   0xf61e2562, 0xc040b340, 0x265e5a51, 0xe9b6c7aa,
   0xd62f105d, 0x02441453, 0xd8a1e681, 0xe7d3fbc8,
   0x21e1cde6, 0xc33707d6, 0xf4d50d87, 0x455a14ed,
   0xa9e3e905, 0xfcefa3f8, 0x676f02d9, 0x8d2a4c8a,
   0xfffa3942, 0x8771f681, 0x6d9d6122, 0xfde5380c,
   0xa4beea44, 0x4bdecfa9, 0xf6bb4b60, 0xbebfbc70,
   0x289b7ec6, 0xeaa127fa, 0xd4ef3085, 0x04881d05,
   0xd9d4d039, 0xe6db99e5, 0x1fa27cf8, 0xc4ac5665,
   0xf4292244, 0x432aff97, 0xab9423a7, 0xfc93a039,
   0x655b59c3, 0x8f0ccc92, 0xffeff47d, 0x85845dd1,
   0x6fa87e4f, 0xfe2ce6e0, 0xa3014314, 0x4e0811a1,
   0xf7537e82, 0xbd3af235, 0x2ad7d2bb, 0xeb86d391]

/-- The sixty-four per-round rotation amounts. -/
def md5S : List Nat :=
  [7, 12, 17, 22, 7, 12, 17, 22, 7, 12, 17, 22, 7, 12, 17, 22,
   5, 9, 14, 20, 5, 9, 14, 20, 5, 9, 14, 20, 5, 9, 14, 20,
   4, 11, 16, 23, 4, 11, 16, 23, 4, 11, 16, 23, 4, 11, 16, 23,
   6, 10, 15, 21, 6, 10, 15, 21, 6, 10, 15, 21, 6, 10, 15, 21]

/-- The round-dependent bitwise mixing function. -/
def md5F (i b c d : Nat) : Nat :=
  if i < 16 then (b &&& c) ||| ((b ^^^ 4294967295) &&& d)
  else if i < 32 then (d &&& b) ||| ((d ^^^ 4294967295) &&& c)
  else if i < 48 then b ^^^ c ^^^ d
  else c ^^^ (b ||| (d ^^^ 4294967295))

/-- The round-dependent message-word index. -/
def md5G (i : Nat) : Nat :=
  if i < 16 then i
  else if i < 32 then (5 * i + 1) % 16
  else if i < 48 then (3 * i + 5) % 16
  else (7 * i) % 16

/-- A little-endian 32-bit word from (up to) four bytes. -/
def leWord (bs : List Nat) : Nat :=
  bs.getD 0 0 % 256 + 256 * (bs.getD 1 0 % 256) +
    65536 * (bs.getD 2 0 % 256) + 16777216 * (bs.getD 3 0 % 256)

/-- The sixteen little-endian message words of one 64-byte block. -/
def blockWords (block : List Nat) : List Nat :=
  (List.range 16).map (fun j => leWord ((block.drop (4 * j)).take 4))

/-- One of the sixty-four rounds of the compression function. -/
def md5Step (m : List Nat) (st : MD5St) (i : Nat) : MD5St :=
  let (a, b, c, d) := st
  let tmp := (a + md5F i b c d + md5K.getD i 0 + m.getD (md5G i) 0) % 4294967296
  let nb := (b + rotl32 tmp (md5S.getD i 0)) % 4294967296
  (d, nb, b, c)

/-- The compression function: sixty-four rounds over one 64-byte block,
then a feed-forward addition of the incoming state. -/
def md5Block (st : MD5St) (block : List Nat) : MD5St :=
  let m := blockWords block
  let (a, b, c, d) := (List.range 64).foldl (md5Step m) st
  let (ia, ib, ic, id) := st
  ((ia + a) % 4294967296, (ib + b) % 4294967296,
   (ic + c) % 4294967296, (id + d) % 4294967296)

/-- Compress every complete leading 64-byte block of `data`, returning the
new chain state together with the remaining (fewer than 64) bytes. -/
def processBlocks (st : MD5St) (data : List Nat) : MD5St × List Nat :=
  if data.length < 64 then (st, data)
  else processBlocks (md5Block st (data.take 64)) (data.drop 64)
termination_by data.length
decreasing_by
  simp only [List.length_drop]
  omega

/-- The `n` little-endian bytes of `x`. -/
def leBytes (n x : Nat) : List Nat :=
  (List.range n).map (fun i => (x >>> (8 * i)) % 256)

/-- The lowercase hexadecimal digit character for `n < 16`. -/
def hexChar (n : Nat) : Char :=
  if n < 10 then Char.ofNat (48 + n) else Char.ofNat (87 + n)

/-- The two lowercase hexadecimal characters of the byte `b` ("%02x"). -/
def byteHex (b : Nat) : List Char :=
  [hexChar (b / 16 % 16), hexChar (b % 16)]

/-- Whether a character is a lowercase hexadecimal digit (0-9 or a-f). -/
def isLowerHexDigit (c : Char) : Bool :=
  (48 ≤ c.toNat && c.toNat ≤ 57) || (97 ≤ c.toNat && c.toNat ≤ 102)

/-- A `hashlib.md5` object: chain state, pending bytes (always fewer than
64), and total absorbed length. -/
structure MD5Ctx where
  h : MD5St
  buf : List Nat
  len : Nat
deriving Repr

/-- `hashlib.md5()`: the RFC 1321 initial chain state, nothing absorbed. -/
def MD5Ctx.init : MD5Ctx :=
  { h := (0x67452301, 0xefcdab89, 0x98badcfe, 0x10325476), buf := [], len := 0 }

/-- `m.update(chunk)`: absorb `chunk`, compressing each complete 64-byte
block of pending-plus-new bytes. -/
def MD5Ctx.update (ctx : MD5Ctx) (chunk : List Nat) : MD5Ctx :=
  let p := processBlocks ctx.h (ctx.buf ++ chunk)
  { h := p.1, buf := p.2, len := ctx.len + chunk.length }

/-- `m.hexdigest()`: pad the pending bytes (0x80, zeros, 64-bit
little-endian bit count), compress, and render the four chaining words as
32 lowercase hexadecimal characters (little-endian byte order). -/
def MD5Ctx.hexdigest (ctx : MD5Ctx) : String :=
  let z := (56 + 64 - (ctx.buf.length + 1) % 64) % 64
  let tail := ctx.buf ++ 128 :: (List.replicate z 0 ++
    leBytes 8 ((8 * ctx.len) % 18446744073709551616))
  let p := processBlocks ctx.h tail
  String.mk (((leBytes 4 p.1.1 ++ leBytes 4 p.1.2.1 ++
    leBytes 4 p.1.2.2.1 ++ leBytes 4 p.1.2.2.2).map byteHex).flatten)

/-- The chunked reading loop of `Archive.get_md5` (src/archive.py lines
56-60): `chunk = f.read(8192)`, then while the chunk is non-empty, feed it
to the accumulator and read the next 8192 bytes. -/
def md5_read_loop (fhash : MD5Ctx) (remaining : List Nat) : MD5Ctx :=
  let chunk := remaining.take 8192
  if chunk.isEmpty then fhash
  else md5_read_loop (fhash.update chunk) (remaining.drop 8192)
termination_by remaining.length
decreasing_by
  simp only [List.length_drop]
  rename_i hne
  simp only [chunk, List.isEmpty_eq_true, List.take_eq_nil_iff] at hne
  have hlen : remaining ≠ [] := by
    intro hcon
    exact hne (Or.inr hcon)
  have : 0 < remaining.length := List.length_pos.mpr hlen
  omega

/-- `Archive.get_md5` (src/archive.py lines 50-61): raises
`ArchiveException` unless the instance is packed; otherwise opens the
`.tgz`-named output for reading (`fileContent` is its byte content, `none`
when no such file exists, in which case `open` raises `FileNotFoundError`,
an `OSError`) and streams it through MD5 in 8192-byte chunks. -/
def Archive.get_md5 (a : Archive) (fileContent : Option (List Nat)) :
    Except PyError String :=
  if a.is_packed = false then
    Except.error (PyError.archiveExc
      "Archive needs to be packed before generating md5sum.")
  else
    match fileContent with
    | none => Except.error (PyError.osError
        ("No such file or directory: " ++ a.get_name true))
    | some content => Except.ok (md5_read_loop MD5Ctx.init content).hexdigest

/-! ## src/bak.py: configuration creation and loading -/

/-- The two fields of the JSON configuration consumed and produced by
src/bak.py: `"root"` and `"files"`. -/
structure ConfigData where
  root : String
  files : List String
deriving DecidableEq, Repr

/-- The world visible to src/bak.py: whether a path names an existing
regular file, and what `json.load` yields for the file at that path
(`none` models a `json.JSONDecodeError`). -/
structure BakFS where
  isFile : String → Bool
  parse : String → Option ConfigData

/-- `create_config` (src/bak.py lines 93-113).  The template populates
`root` with `str(Path.home())` — passed here as `home` — and `files` with
the two example entries.  Inside the `try` block, an existing regular file
at `fname` raises `ConfigError("File already exists.")` before anything is
written; the `except OSError` clause catches it (`ConfigError` subclasses
`OSError`) and re-raises it wrapped.  On success the written template is
returned (the model returns the data that `json.dump` serialises). -/
def create_config (fs : BakFS) (home fname : String) :
    Except PyError ConfigData :=
  let config : ConfigData :=
    { root := home, files := ["pictures", "videos/funny_vid.mp4"] }
  let attempt : Except PyError ConfigData :=
    if fs.isFile fname then
      Except.error (PyError.configError "File already exists.")
    else
      Except.ok config
  match attempt with
  | Except.error exc =>
    if exc.isOSError then
      Except.error (PyError.configError
        ("Could not create \x27" ++ fname ++ "\x27: " ++ exc.str))
    else
      Except.error exc
  | Except.ok c => Except.ok c

/-- `load_config` (src/bak.py lines 116-128).  Inside the `try` block, a
missing or non-regular-file path raises
`ConfigError("Configuration provided either does not exist or it is not a
file.")`; otherwise the file is parsed with `json.load`, whose
`JSONDecodeError` is a `ValueError` and therefore NOT caught by the
`except OSError` clause.  The `except OSError` clause wraps every `OSError`
(including the internal `ConfigError`) in a new `ConfigError` with a
"Could not load" prefix. -/
def load_config (fs : BakFS) (fname : String) : Except PyError ConfigData :=
  let attempt : Except PyError ConfigData :=
    if fs.isFile fname then
      match fs.parse fname with
      | none => Except.error PyError.valueError
      | some data => Except.ok data
    else
      Except.error (PyError.configError
        ("Configuration provided either does" ++
         " not exist or it is not a file."))
  match attempt with
  | Except.error exc =>
    if exc.isOSError then
      Except.error (PyError.configError
        ("Could not load \x27" ++ fname ++ "\x27: " ++ exc.str))
    else
      Except.error exc
  | Except.ok d => Except.ok d

/-- The `--use` branch of `main` (src/bak.py lines 46-48): the statement is
bare `load_config(config_name)` — the returned configuration data is
discarded, and `main` then falls out of the `try` block and returns.
Nothing from src/archive.py is imported or constructed anywhere in
src/bak.py. -/
def main_use (fs : BakFS) (config_name : String) : Except PyError Unit :=
  (load_config fs config_name).map (fun _ => ())

/-- The exit status of `main` on the `--use` branch (src/bak.py lines
46-59): implicit 0 on success, -1 from either `except` clause. -/
def main_use_exitcode (fs : BakFS) (config_name : String) : Int :=
  match load_config fs config_name with
  | Except.ok _ => 0
  | Except.error _ => -1

/-! ## Concrete worlds and instances used to exhibit behaviour -/

/-- A filesystem with no entries at all. -/
def fsNone : FS := { isDir := fun _ => false, isFile := fun _ => false }

/-- A filesystem holding only the directory "r". -/
def fsDir : FS := { isDir := fun s => s == "r", isFile := fun _ => false }

/-- A filesystem holding the directory "r" and a file "f.txt" that resolves
relative to the working directory but NOT under "r" (the path "r/f.txt"
does not exist). -/
def fsCwdFile : FS :=
  { isDir := fun s => s == "r", isFile := fun s => s == "f.txt" }

/-- A filesystem holding the directory "r" and the file "r/a.txt", so the
item "a.txt" resolves by joining against the root. -/
def fsBoth : FS :=
  { isDir := fun s => s == "r", isFile := fun s => s == "r/a.txt" }

/-- The archive built over `fsCwdFile` from root "r" and items ["f.txt"]:
"f.txt" is kept because it is valid on its own. -/
def aCwd : Archive :=
  { root := "r", items := ["f.txt"], baseName := "Archive", packed := false
    timestamp := "20250101-000000" }

/-- The archive built over `fsBoth` from root "r" and items ["a.txt"]. -/
def aBoth : Archive :=
  { root := "r", items := ["a.txt"], baseName := "Archive", packed := false
    timestamp := "20250101-000000" }

/-- An archive with no items, as constructed with the default
`packed=False`. -/
def aIdle : Archive :=
  { root := "r", items := [], baseName := "Archive", packed := false
    timestamp := "20250101-000000" }

/-- `aIdle` after a successful `pack()`. -/
def aIdlePacked : Archive :=
  { root := "r", items := [], baseName := "Archive", packed := true
    timestamp := "20250101-000000" }

/-- An archive constructed with the constructor argument `packed=True`,
before any call to `pack()`. -/
def aPrepacked : Archive :=
  { root := "r", items := [], baseName := "Archive", packed := true
    timestamp := "20250101-000000" }

/-- The archive constructed with base name "  hello " (kept trimmed). -/
def aHello : Archive :=
  { root := "r", items := [], baseName := "hello", packed := false
    timestamp := "20250101-000000" }

/-- A world for src/bak.py where "config.json" exists and parses. -/
def bakParses : BakFS :=
  { isFile := fun s => s == "config.json"
    parse := fun s =>
      if s == "config.json" then
        some { root := "/home/user", files := ["pictures"] }
      else none }

/-- A world for src/bak.py with no files at all. -/
def bakEmpty : BakFS := { isFile := fun _ => false, parse := fun _ => none }

/-- A world for src/bak.py where every path names an existing regular
file (none of them parseable). -/
def bakAllFiles : BakFS := { isFile := fun _ => true, parse := fun _ => none }

/-! ## Helper lemmas -/

/-- Characterisation of a successful construction: the root must be a
valid directory, and the resulting state is exactly the one the four
setters produce. -/
theorem mkArchive_ok_iff (fs : FS) (froot : String) (fitems : List String)
    (nm : String) (p : Bool) (now : String) (a : Archive) :
    mkArchive fs froot fitems nm p now = Except.ok a ↔
      (is_valid_dir fs froot = true ∧
        a = { root := froot, items := set_items fs froot fitems,
              baseName := set_name nm, packed := p, timestamp := now }) := by
  unfold mkArchive
  by_cases h : is_valid_dir fs froot = true
  · simp only [h, if_true, true_and]
    constructor
    · intro hok
      injection hok with h2
      exact h2.symm
    · intro h2
      rw [h2]
  · simp [h]

/-- When every stored item joins to a valid entity, the `tar.add` loop
completes and returns a member for each item. -/
theorem tar_add_items_ok (fs : FS) (root : String) :
    ∀ items : List String,
      (∀ i ∈ items, (join_path fs root i).isSome = true) →
      ∃ ms, tar_add_items fs root items = Except.ok ms := by
  intro items
  induction items with
  | nil => exact fun _ => ⟨[], rfl⟩
  | cons i rest ih =>
    intro h
    have hi := h i (by simp)
    cases hj : join_path fs root i with
    | none => rw [hj] at hi; simp at hi
    | some full =>
      obtain ⟨ms, hms⟩ := ih (fun x hx => h x (by simp [hx]))
      refine ⟨(full, i) :: ms, ?_⟩
      simp only [tar_add_items, hj, hms, Except.map]

/-- When some stored item fails to join, the `tar.add` loop raises
`TypeError` (the `None` pathname reaches `os.fspath`). -/
theorem tar_add_items_error (fs : FS) (root : String) :
    ∀ items : List String,
      (∃ i ∈ items, join_path fs root i = none) →
      tar_add_items fs root items = Except.error PyError.typeError := by
  intro items
  induction items with
  | nil => intro h; simp at h
  | cons i rest ih =>
    intro h
    cases hj : join_path fs root i with
    | none => simp only [tar_add_items, hj]
    | some full =>
      have hrest : ∃ x ∈ rest, join_path fs root x = none := by
        obtain ⟨x, hx, hxn⟩ := h
        rcases List.mem_cons.mp hx with rfl | hx2
        · rw [hj] at hxn; exact absurd hxn (by simp)
        · exact ⟨x, hx2, hxn⟩
      simp only [tar_add_items, hj, ih hrest, Except.map]

/-! ## Claim theorems -/

/-- Claim C5: for every root and candidate list, item resolution keeps, in
input order and with duplicates preserved, exactly those candidates that
are a valid item either directly or when joined as root/candidate, and it
stores the original candidate string (never the joined form); invalid
candidates are dropped without error. -/
theorem C5_item_resolution_filter (fs : FS) (root : String)
    (items : List String) :
    set_items fs root items =
      items.filter
        (fun c => is_valid_item fs c || is_valid_item fs (pyJoin root c)) := by
  induction items with
  | nil => rfl
  | cons i rest ih =>
    by_cases h1 : is_valid_item fs i = true
    · simp [set_items, List.filter_cons, h1, ih]
    · by_cases h2 : is_valid_item fs (pyJoin root i) = true
      · simp [set_items, List.filter_cons, h1, h2, ih]
      · simp [set_items, List.filter_cons, h1, h2, ih]

/-- Claim C6: constructing an Archive with a root that is not an existing
directory always fails with `ArchiveException`; constructing with an
existing directory always succeeds. -/
theorem C6_root_validation (fs : FS) (froot : String) (fitems : List String)
    (nm : String) (p : Bool) (now : String) :
    (is_valid_dir fs froot = false →
      mkArchive fs froot fitems nm p now =
        Except.error
          (PyError.archiveExc "\x27root directory\x27 provided is not valid.")) ∧
    (is_valid_dir fs froot = true →
      ∃ a, mkArchive fs froot fitems nm p now = Except.ok a) := by
  constructor
  · intro h
    unfold mkArchive
    simp [h]
  · intro h
    unfold mkArchive
    simp [h]

/-- Witness for C6: over `fsNone` the root "r" is rejected with the
`ArchiveException`; over `fsDir` the same construction succeeds. -/
theorem C6_root_validation_witness :
    mkArchive fsNone "r" [] "Archive" false "20250101-000000" =
      Except.error
        (PyError.archiveExc "\x27root directory\x27 provided is not valid.") ∧
    ∃ a, mkArchive fsDir "r" [] "Archive" false "20250101-000000" =
      Except.ok a :=
  ⟨(C6_root_validation fsNone "r" [] "Archive" false "20250101-000000").1
      (by decide),
   (C6_root_validation fsDir "r" [] "Archive" false "20250101-000000").2
      (by decide)⟩

/-- Claim C7: the output name of a constructed Archive is
`baseName ++ "-" ++ timestamp` followed by ".tgz" when the flag is true
and ".tar" otherwise, where `baseName` is the constructor argument
stripped of surrounding whitespace and replaced by the sentinel "Archive"
when blank after stripping; consequently constructing with "   " names
its output exactly as constructing with "Archive" at the same timestamp,
and two calls on one instance differ only in the extension. -/
theorem C7_output_name (fs : FS) (froot : String) (fitems : List String)
    (nm : String) (p : Bool) (now : String) (a : Archive)
    (h : mkArchive fs froot fitems nm p now = Except.ok a) :
    (∀ flag : Bool, a.get_name flag =
        (if pyStrip nm = "" then "Archive" else pyStrip nm) ++ "-" ++ now ++
          (if flag then ".tgz" else ".tar")) ∧
    (∀ a2 a3 : Archive,
      mkArchive fs froot fitems "   " p now = Except.ok a2 →
      mkArchive fs froot fitems "Archive" p now = Except.ok a3 →
      ∀ flag : Bool, a2.get_name flag = a3.get_name flag) := by
  obtain ⟨hdir, ha⟩ := (mkArchive_ok_iff fs froot fitems nm p now a).mp h
  constructor
  · intro flag
    rw [ha]
    rfl
  · intro a2 a3 h2 h3 flag
    obtain ⟨-, ha2⟩ := (mkArchive_ok_iff fs froot fitems "   " p now a2).mp h2
    obtain ⟨-, ha3⟩ :=
      (mkArchive_ok_iff fs froot fitems "Archive" p now a3).mp h3
    rw [ha2, ha3]
    rfl

/-- Witness for C7: constructing over `fsDir` with base name "  hello "
yields "hello-20250101-000000.tgz" / ".tar", and the "   " construction
names its output exactly as the "Archive" one. -/
theorem C7_output_name_witness :
    aHello.get_name true = "hello-20250101-000000.tgz" ∧
    aHello.get_name false = "hello-20250101-000000.tar" ∧
    aIdle.get_name true = aIdle.get_name true := by
  have h := C7_output_name fsDir "r" [] "  hello " false "20250101-000000"
    aHello (by decide)
  refine ⟨(h.1 true).trans (by decide), (h.1 false).trans (by decide), ?_⟩
  exact h.2 aIdle aIdle (by decide) (by decide) true

/-- Claim C8: the packed flag is monotonic — a successful `pack()` sets it
to true and changes nothing else; no operation ever resets it (the only
state transition any public operation performs is the one shown here, and
a `pack()` that raises never reaches the assignment, leaving the instance
unchanged). -/
theorem C8_packed_monotonic (fs : FS) (a : Archive)
    (ms : List (String × String)) (a2 : Archive)
    (h : Archive.pack fs a = Except.ok (ms, a2)) :
    a2.packed = true ∧ a2 = { a with packed := true } ∧
      (a.packed = true → a2.packed = true) := by
  unfold Archive.pack at h
  cases htar : tar_add_items fs a.root a.items with
  | error e => rw [htar] at h; exact absurd h (by simp [Except.map])
  | ok ms2 =>
    rw [htar] at h
    simp only [Except.map] at h
    injection h with hpair
    have h2 : a2 = { a with packed := true } := (congrArg Prod.snd hpair).symm
    exact ⟨by rw [h2], h2, fun _ => by rw [h2]⟩

/-- Witness for C8: packing the idle archive over `fsDir` yields exactly
`aIdlePacked`, whose flag is true. -/
theorem C8_packed_monotonic_witness :
    aIdlePacked.packed = true ∧ aIdlePacked = { aIdle with packed := true } :=
  ⟨(C8_packed_monotonic fsDir aIdle [] aIdlePacked (by decide)).1,
   (C8_packed_monotonic fsDir aIdle [] aIdlePacked (by decide)).2.1⟩

/-- Claim C1 (amended): in `pack()` each stored item is joined against the
root with `join_path`; when every join resolves, the loop adds every
member and `pack()` succeeds, but when some stored item's join does not
resolve, `join_path` returns the `None` sentinel, `tar.add(None, item)`
raises `TypeError`, and `pack()` propagates that exception instead of
silently skipping the member. -/
theorem C1_pack_raises_on_unjoined_member (fs : FS) (a : Archive) :
    ((∀ i ∈ a.items, (join_path fs a.root i).isSome = true) →
      ∃ ms, Archive.pack fs a = Except.ok (ms, { a with packed := true })) ∧
    ((∃ i ∈ a.items, join_path fs a.root i = none) →
      Archive.pack fs a = Except.error PyError.typeError) := by
  constructor
  · intro h
    obtain ⟨ms, hms⟩ := tar_add_items_ok fs a.root a.items h
    exact ⟨ms, by unfold Archive.pack; rw [hms]; rfl⟩
  · intro h
    unfold Archive.pack
    rw [tar_add_items_error fs a.root a.items h]
    rfl

/-- Counterexample to C1 as stated: over `fsCwdFile` the construction from
root "r" and items ["f.txt"] stores "f.txt" (it is valid on its own), yet
its join "r/f.txt" resolves to nothing, so `pack()` raises a `TypeError`
rather than skipping the member — it does not "never raise". -/
theorem C1_counterexample :
    mkArchive fsCwdFile "r" ["f.txt"] "Archive" false "20250101-000000" =
      Except.ok aCwd ∧
    join_path fsCwdFile "r" "f.txt" = none ∧
    Archive.pack fsCwdFile aCwd = Except.error PyError.typeError := by
  refine ⟨by decide, by decide, by decide⟩

/-- Witness for C1: over `fsBoth` every item of `aBoth` joins and `pack()`
succeeds; over `fsCwdFile` the stored item "f.txt" fails to join and
`pack()` raises. -/
theorem C1_pack_raises_on_unjoined_member_witness :
    (∃ ms, Archive.pack fsBoth aBoth =
      Except.ok (ms, { aBoth with packed := true })) ∧
    Archive.pack fsCwdFile aCwd = Except.error PyError.typeError :=
  ⟨(C1_pack_raises_on_unjoined_member fsBoth aBoth).1 (by decide),
   (C1_pack_raises_on_unjoined_member fsCwdFile aCwd).2 (by decide)⟩

/-- A successful `pack()` leaves every field unchanged except `__packed`,
which it sets to true (src/archive.py line 100). -/
theorem pack_ok_state (fs : FS) (a : Archive) (ms : List (String × String))
    (a2 : Archive) (h : Archive.pack fs a = Except.ok (ms, a2)) :
    a2 = { a with packed := true } := by
  unfold Archive.pack at h
  cases htar : tar_add_items fs a.root a.items with
  | error e => rw [htar] at h; exact absurd h (by simp [Except.map])
  | ok ms2 =>
    rw [htar] at h
    simp only [Except.map] at h
    injection h with hpair
    exact (congrArg Prod.snd hpair).symm

/-! ## Lemmas about the MD5 model -/

/-- Fewer than 64 bytes hold no complete block: nothing is compressed. -/
theorem processBlocks_of_lt (st : MD5St) (l : List Nat)
    (h : l.length < 64) : processBlocks st l = (st, l) := by
  unfold processBlocks
  simp [h]

/-- With at least 64 bytes, one block is compressed and the rest recurses. -/
theorem processBlocks_of_ge (st : MD5St) (l : List Nat)
    (h : ¬ l.length < 64) :
    processBlocks st l =
      processBlocks (md5Block st (l.take 64)) (l.drop 64) := by
  conv_lhs => rw [processBlocks.eq_def]
  rw [if_neg h]

/-- Block compression over a concatenation factors through the state and
leftover of the first part (fuel-indexed induction on the first part). -/
theorem processBlocks_append_aux (n : Nat) :
    ∀ a : List Nat, a.length ≤ n → ∀ (st : MD5St) (b : List Nat),
      processBlocks st (a ++ b) =
        processBlocks (processBlocks st a).1
          ((processBlocks st a).2 ++ b) := by
  induction n with
  | zero =>
    intro a ha st b
    have h0 : a = [] := List.length_eq_zero.mp (Nat.le_zero.mp ha)
    subst h0
    rw [processBlocks_of_lt st [] (by simp)]
  | succ n ih =>
    intro a ha st b
    by_cases h64 : a.length < 64
    · rw [processBlocks_of_lt st a h64]
    · have hlen : 64 ≤ a.length := Nat.not_lt.mp h64
      have hab : ¬ (a ++ b).length < 64 := by
        simp only [List.length_append]
        omega
      rw [processBlocks_of_ge st (a ++ b) hab,
        List.take_append_of_le_length hlen,
        List.drop_append_of_le_length hlen,
        processBlocks_of_ge st a h64]
      exact ih (a.drop 64) (by simp only [List.length_drop]; omega)
        (md5Block st (a.take 64)) b

/-- Block compression over a concatenation factors through the state and
leftover of the first part. -/
theorem processBlocks_append (st : MD5St) (a b : List Nat) :
    processBlocks st (a ++ b) =
      processBlocks (processBlocks st a).1 ((processBlocks st a).2 ++ b) :=
  processBlocks_append_aux a.length a (le_refl _) st b

/-- The leftover of block compression is always a partial block. -/
theorem processBlocks_snd_lt_aux (n : Nat) :
    ∀ l : List Nat, l.length ≤ n → ∀ st : MD5St,
      (processBlocks st l).2.length < 64 := by
  induction n with
  | zero =>
    intro l hl st
    have h0 : l = [] := List.length_eq_zero.mp (Nat.le_zero.mp hl)
    subst h0
    rw [processBlocks_of_lt st [] (by simp)]
    simp
  | succ n ih =>
    intro l hl st
    by_cases h64 : l.length < 64
    · rw [processBlocks_of_lt st l h64]
      exact h64
    · rw [processBlocks_of_ge st l h64]
      exact ih (l.drop 64) (by simp only [List.length_drop]; omega) _

/-- The leftover of block compression is always a partial block. -/
theorem processBlocks_snd_lt (st : MD5St) (l : List Nat) :
    (processBlocks st l).2.length < 64 :=
  processBlocks_snd_lt_aux l.length l (le_refl _) st

/-- Absorbing nothing leaves the accumulator unchanged (given its
invariant that the pending buffer is a partial block). -/
theorem MD5Ctx.update_nil (ctx : MD5Ctx) (h : ctx.buf.length < 64) :
    ctx.update [] = ctx := by
  simp only [MD5Ctx.update, List.append_nil,
    processBlocks_of_lt ctx.h ctx.buf h, List.length_nil, Nat.add_zero]

/-- Two successive absorptions are one absorption of the concatenation:
the streaming accumulator depends only on the absorbed byte stream. -/
theorem MD5Ctx.update_update (ctx : MD5Ctx) (a b : List Nat) :
    (ctx.update a).update b = ctx.update (a ++ b) := by
  simp only [MD5Ctx.update]
  rw [← List.append_assoc, processBlocks_append ctx.h (ctx.buf ++ a) b]
  simp [List.length_append, Nat.add_assoc]

/-- The pending buffer stays a partial block after every absorption. -/
theorem MD5Ctx.update_buf_lt (ctx : MD5Ctx) (c : List Nat) :
    (ctx.update c).buf.length < 64 := by
  simp only [MD5Ctx.update]
  exact processBlocks_snd_lt _ _

/-- The 8192-byte reading loop absorbs exactly the whole remaining
content (fuel-indexed induction on the content). -/
theorem md5_read_loop_eq_update_aux (n : Nat) :
    ∀ remaining : List Nat, remaining.length ≤ n → ∀ ctx : MD5Ctx,
      ctx.buf.length < 64 →
      md5_read_loop ctx remaining = ctx.update remaining := by
  induction n with
  | zero =>
    intro remaining h0 ctx hb
    have hnil : remaining = [] := List.length_eq_zero.mp (Nat.le_zero.mp h0)
    subst hnil
    rw [md5_read_loop.eq_def]
    simp only [List.take_nil, List.isEmpty_nil, if_true]
    exact (MD5Ctx.update_nil ctx hb).symm
  | succ n ih =>
    intro remaining h ctx hb
    by_cases hnil : remaining = []
    · subst hnil
      rw [md5_read_loop.eq_def]
      simp only [List.take_nil, List.isEmpty_nil, if_true]
      exact (MD5Ctx.update_nil ctx hb).symm
    · have hne : (remaining.take 8192).isEmpty = false := by
        simp [List.isEmpty_eq_false_iff_exists_mem, List.take_eq_nil_iff, hnil]
      rw [md5_read_loop.eq_def]
      simp only [hne, Bool.false_eq_true, if_false]
      rw [ih (remaining.drop 8192)
        (by
          simp only [List.length_drop]
          have hpos : 0 < remaining.length := List.length_pos.mpr hnil
          omega)
        (ctx.update (remaining.take 8192)) (MD5Ctx.update_buf_lt ctx _)]
      rw [MD5Ctx.update_update, List.take_append_drop]

/-! ## Lemmas about the hexadecimal rendering -/

/-- `leBytes` produces exactly `n` bytes. -/
theorem leBytes_length (n x : Nat) : (leBytes n x).length = n := by
  simp [leBytes]

/-- Hex-encoding doubles the byte count. -/
theorem flatten_byteHex_length (bs : List Nat) :
    ((bs.map byteHex).flatten).length = 2 * bs.length := by
  induction bs with
  | nil => rfl
  | cons b rest ih =>
    simp only [List.map_cons, List.flatten_cons, List.length_append, ih,
      byteHex, List.length_cons, List.length_nil]
    omega

/-- The length of a string built from an explicit character list. -/
theorem length_mk (l : List Char) : (String.mk l).length = l.length := rfl

/-- Every hexadecimal digit character is a lowercase hex digit. -/
theorem hexChar_isLower : ∀ m, m < 16 → isLowerHexDigit (hexChar m) = true := by
  decide

/-- Both characters of a hex-encoded byte are lowercase hex digits. -/
theorem byteHex_isLower (b : Nat) :
    ∀ c ∈ byteHex b, isLowerHexDigit c = true := by
  intro c hc
  simp only [byteHex, List.mem_cons, List.not_mem_nil, or_false] at hc
  rcases hc with rfl | rfl
  · exact hexChar_isLower _ (Nat.mod_lt _ (by decide))
  · exact hexChar_isLower _ (Nat.mod_lt _ (by decide))

/-- `hexdigest` always renders exactly 32 characters. -/
theorem hexdigest_length (ctx : MD5Ctx) : (MD5Ctx.hexdigest ctx).length = 32 := by
  unfold MD5Ctx.hexdigest
  rw [length_mk, flatten_byteHex_length]
  simp [List.length_append, leBytes_length]

/-- Every character `hexdigest` renders is a lowercase hex digit. -/
theorem hexdigest_chars (ctx : MD5Ctx) :
    ∀ c ∈ (MD5Ctx.hexdigest ctx).data, isLowerHexDigit c = true := by
  unfold MD5Ctx.hexdigest
  intro c hc
  obtain ⟨l, hl, hcl⟩ := List.mem_flatten.mp hc
  obtain ⟨b, hb, rfl⟩ := List.mem_map.mp hl
  exact byteHex_isLower b c hcl

/-- Claim C4: for every byte sequence, including the empty one, the digest
computed by the `get_md5` loop — reading in fixed 8192-byte chunks and
feeding each chunk into the streaming MD5 accumulator — equals the MD5
hex digest of the whole byte content absorbed in one pass. -/
theorem C4_chunked_md5_eq_whole (content : List Nat) :
    (md5_read_loop MD5Ctx.init content).hexdigest =
      (MD5Ctx.init.update content).hexdigest := by
  rw [md5_read_loop_eq_update_aux content.length content (le_refl _)
    MD5Ctx.init (by decide)]

/-- Claim C3 (amended): for every Archive constructed with the default
`packed=False`, `get_md5` before any `pack()` always fails with the
`ArchiveException`; after a successful `pack()` it succeeds on the byte
content of the file `pack()` wrote and returns a 32-character lowercase
hexadecimal string. -/
theorem C3_packed_gating (fs : FS) (froot : String) (fitems : List String)
    (nm now : String) (a : Archive)
    (h : mkArchive fs froot fitems nm false now = Except.ok a) :
    (∀ fc : Option (List Nat), a.get_md5 fc =
      Except.error (PyError.archiveExc
        "Archive needs to be packed before generating md5sum.")) ∧
    (∀ (fs2 : FS) (ms : List (String × String)) (a2 : Archive),
      Archive.pack fs2 a = Except.ok (ms, a2) →
      ∀ content : List Nat,
        a2.get_md5 (some content) =
          Except.ok (md5_read_loop MD5Ctx.init content).hexdigest ∧
        ((md5_read_loop MD5Ctx.init content).hexdigest).length = 32 ∧
        ∀ c ∈ ((md5_read_loop MD5Ctx.init content).hexdigest).data,
          isLowerHexDigit c = true) := by
  obtain ⟨hdir, ha⟩ := (mkArchive_ok_iff fs froot fitems nm false now a).mp h
  have hpacked : a.packed = false := by rw [ha]
  constructor
  · intro fc
    unfold Archive.get_md5
    simp [Archive.is_packed, hpacked]
  · intro fs2 ms a2 hpack content
    have ha2 : a2.packed = true := by
      rw [pack_ok_state fs2 a ms a2 hpack]
    refine ⟨?_, hexdigest_length _, hexdigest_chars _⟩
    unfold Archive.get_md5
    simp [Archive.is_packed, ha2]

/-- Counterexample to C3 as stated ("for every Archive instance"): the
constructor accepts `packed=True` (src/archive.py line 15), and on such an
instance `get_md5` before any `pack()` call does not raise the
`ArchiveException` — it proceeds to read the file. -/
theorem C3_counterexample :
    mkArchive fsDir "r" [] "Archive" true "20250101-000000" =
      Except.ok aPrepacked ∧
    (aPrepacked.get_md5 (some [])).isOk = true := by
  exact ⟨by decide, by decide⟩

/-- Witness for C3: the idle archive rejects `get_md5` with the
`ArchiveException`; after packing it, `get_md5` on the written (empty)
content succeeds with a 32-character digest. -/
theorem C3_packed_gating_witness :
    aIdle.get_md5 none =
      Except.error (PyError.archiveExc
        "Archive needs to be packed before generating md5sum.") ∧
    aIdlePacked.get_md5 (some []) =
      Except.ok (md5_read_loop MD5Ctx.init []).hexdigest ∧
    ((md5_read_loop MD5Ctx.init []).hexdigest).length = 32 := by
  have h := C3_packed_gating fsDir "r" [] "Archive" "20250101-000000" aIdle
    (by decide)
  have h2 := h.2 fsDir [] aIdlePacked (by decide) []
  exact ⟨h.1 none, h2.1, h2.2.1⟩

/-- Claim C2 (code bug): in use mode with an existing, parseable
configuration file, `load_config` succeeds and returns the parsed data —
but `main`'s use branch (src/bak.py line 48) is the bare statement
`load_config(config_name)`: the returned data is discarded, `main_use`
evaluates to unit, and no Archive is ever constructed (src/bak.py never
imports src/archive.py).  The parsed fields are not handed to the
Archiver, contradicting the claim. -/
theorem C2_use_mode_discards_config :
    load_config bakParses "config.json" =
      Except.ok { root := "/home/user", files := ["pictures"] } ∧
    main_use bakParses "config.json" = Except.ok () ∧
    main_use_exitcode bakParses "config.json" = 0 := by
  exact ⟨by decide, by decide, by decide⟩

/-- Claim C9: in create mode, an existing regular file at the target makes
`create_config` fail with a ConfigError reporting the "File already
exists." condition — nothing is written — while otherwise a JSON template
is written whose root is the caller's home directory and whose files list
holds exactly the two example entries. -/
theorem C9_create_config_behavior (fs : BakFS) (home fname : String) :
    (fs.isFile fname = true →
      create_config fs home fname =
        Except.error (PyError.configError
          ("Could not create \x27" ++ fname ++ "\x27: File already exists."))) ∧
    (fs.isFile fname = false →
      create_config fs home fname =
        Except.ok { root := home,
                    files := ["pictures", "videos/funny_vid.mp4"] } ∧
      (["pictures", "videos/funny_vid.mp4"] : List String).length = 2) := by
  have hlit : ("\x27: " : String) ++ "File already exists." =
      "\x27: File already exists." := by decide
  constructor
  · intro h
    unfold create_config
    simp [h, PyError.isOSError, PyError.str, String.append_assoc, hlit]
  · intro h
    unfold create_config
    simp [h]

/-- Witness for C9: in a world where "bak.json" exists, creation fails
with the wrapped ConfigError; in an empty world it returns the template
over home "/home/user". -/
theorem C9_create_config_behavior_witness :
    create_config bakAllFiles "/home/user" "bak.json" =
      Except.error (PyError.configError
        "Could not create \x27bak.json\x27: File already exists.") ∧
    create_config bakEmpty "/home/user" "bak.json" =
      Except.ok { root := "/home/user",
                  files := ["pictures", "videos/funny_vid.mp4"] } := by
  constructor
  · exact ((C9_create_config_behavior bakAllFiles "/home/user" "bak.json").1
      (by decide)).trans (by decide)
  · exact ((C9_create_config_behavior bakEmpty "/home/user" "bak.json").2
      (by decide)).1

/-- Claim C10: because ConfigError subclasses OSError, the internal
ConfigError of `create_config` is caught by its own `except OSError`
handler and re-raised wrapped, so the caller observes the message
"Could not create '<fname>': File already exists." — which differs from
the bare "File already exists." — and `load_config` wraps its internal
ConfigError the same way under a "Could not load" prefix. -/
theorem C10_error_wrapping (fs : BakFS) (home fname : String) :
    (fs.isFile fname = true →
      create_config fs home fname =
        Except.error (PyError.configError
          ("Could not create \x27" ++ fname ++ "\x27: File already exists.")) ∧
      ("Could not create \x27" ++ fname ++ "\x27: File already exists.") ≠
        "File already exists.") ∧
    (fs.isFile fname = false →
      load_config fs fname =
        Except.error (PyError.configError
          ("Could not load \x27" ++ fname ++
            "\x27: Configuration provided either does not exist or it is not a file."))) := by
  have hlit : ("\x27: " : String) ++ "File already exists." =
      "\x27: File already exists." := by decide
  have hlit2 : ("Configuration provided either does" : String) ++
      " not exist or it is not a file." =
      "Configuration provided either does not exist or it is not a file." := by
    decide
  have hlit3 : ("\x27: " : String) ++
      "Configuration provided either does not exist or it is not a file." =
      "\x27: Configuration provided either does not exist or it is not a file." := by
    decide
  refine ⟨fun h => ⟨?_, ?_⟩, fun h => ?_⟩
  · unfold create_config
    simp [h, PyError.isOSError, PyError.str, String.append_assoc, hlit]
  · intro heq
    have hlen := congrArg String.length heq
    rw [String.length_append, String.length_append] at hlen
    have h1 : ("Could not create \x27" : String).length = 18 := by decide
    have h2 : ("\x27: File already exists." : String).length = 23 := by decide
    have h3 : ("File already exists." : String).length = 20 := by decide
    omega
  · unfold load_config
    simp [h, PyError.isOSError, PyError.str, String.append_assoc, hlit2, hlit3]

/-- Witness for C10: with "other.json" present, creation reports the
wrapped message (and that message is not the bare one); with it absent,
loading reports the wrapped "Could not load" message. -/
theorem C10_error_wrapping_witness :
    create_config bakAllFiles "/home/user" "other.json" =
      Except.error (PyError.configError
        "Could not create \x27other.json\x27: File already exists.") ∧
    load_config bakEmpty "other.json" =
      Except.error (PyError.configError
        "Could not load \x27other.json\x27: Configuration provided either does not exist or it is not a file.") := by
  constructor
  · exact (((C10_error_wrapping bakAllFiles "/home/user" "other.json").1
      (by decide)).1).trans (by decide)
  · exact ((C10_error_wrapping bakEmpty "/home/user" "other.json").2
      (by decide)).trans (by decide)

end Bakpy
